import Mathlib

/-!
# ARKY backend: the two request handlers of `server.js`

A shallow embedding of `src/server.js`: the chat handler (`POST /api/chat`), the contact
handler (`POST /api/contact`) and the start-up construction of the AI client.

* JavaScript values that can reach the handlers are `JsValue`s.
* The external calls (`ai.models.generateContent`, `nodemailer.createTransport`,
  `transporter.sendMail`) are functions handed to the handlers; each returns or throws.
* A handler run is the list of `Effect`s it performs, in program order: external calls,
  console output and the responses it sends.
-/

namespace ArkyBackend

/-! ## JavaScript values -/

/-- A Number as far as this program observes it: whether `ToBoolean` sends it to false
(`+0`, `-0`, `NaN`) and the text `Number::toString` gives for it. -/
structure JsNum where
  falsy : Bool
  text : String

/-- The values a parsed JSON body, an SDK response field or a missing property can hold.
An object is the list of its own properties; strings are sequences of code points. -/
inductive JsValue where
  | undefined : JsValue
  | null : JsValue
  | bool (b : Bool) : JsValue
  | num (n : JsNum) : JsValue
  | str (s : String) : JsValue
  | arr (items : List JsValue) : JsValue
  | obj (props : List (String × JsValue)) : JsValue

/-- A thrown JavaScript error: its `name` and its `message` text. -/
structure JsError where
  name : String
  message : String

/-- The abstract operation `ToBoolean`, used by `!x`, `x || y` and `x ? a : b`. -/
def truthy : JsValue → Bool
  | .undefined => false
  | .null => false
  | .bool b => b
  | .num n => !n.falsy
  | .str s => s != ""
  | .arr _ => true
  | .obj _ => true

/-- The expression `a || b`. -/
def jsOr (a b : JsValue) : JsValue :=
  if truthy a then a else b

/-- The expression `v === lit` for a string literal `lit`: true exactly for the String
primitive with the same characters. -/
def strictEqualsStr (v : JsValue) (lit : String) : Bool :=
  match v with
  | .str s => s == lit
  | _ => false

/-- Does the object have an own property with this key. -/
def hasOwn (key : String) : List (String × JsValue) → Bool
  | [] => false
  | (k, _) :: rest => k == key || hasOwn key rest

/-- The error `OrdinaryToPrimitive` throws when neither `toString` nor `valueOf` yields a
primitive. -/
def cannotConvert : JsError :=
  { name := "TypeError", message := "Cannot convert object to primitive value" }

mutual
/-- The loop of `Array.prototype.join` with separator `,` on the elements of an array. -/
def joinItems : List JsValue → Except JsError String
  | [] => .ok ""
  | x :: rest =>
    match elemStr x with
    | .error e => .error e
    | .ok s =>
      match rest with
      | [] => .ok s
      | _ :: _ =>
        match joinItems rest with
        | .error e => .error e
        | .ok t => .ok (s ++ "," ++ t)
termination_by structural items => items
/-- One element of a joined array: `undefined` and `null` give the empty string, every other
element goes through `ToString`. -/
def elemStr : JsValue → Except JsError String
  | .undefined => .ok ""
  | .null => .ok ""
  | .bool b => .ok (if b then "true" else "false")
  | .num n => .ok n.text
  | .str s => .ok s
  | .arr items => joinItems items
  | .obj props => if hasOwn "toString" props then .error cannotConvert else .ok "[object Object]"
termination_by structural v => v
end

/-- The abstract operation `ToString`, which a template literal applies to each substitution.
A plain object uses `Object.prototype.toString` unless an own `toString` property (never
callable in parsed JSON) shadows it, in which case `valueOf` cannot produce a primitive
either and a `TypeError` is thrown. An array uses `Array.prototype.join`. -/
def toStr : JsValue → Except JsError String
  | .undefined => .ok "undefined"
  | .null => .ok "null"
  | .bool b => .ok (if b then "true" else "false")
  | .num n => .ok n.text
  | .str s => .ok s
  | .arr items => joinItems items
  | .obj props => if hasOwn "toString" props then .error cannotConvert else .ok "[object Object]"

/-- The value of `obj[key]` for a key that no prototype defines: the own property when there
is one, else `undefined`. -/
def getProp (props : List (String × JsValue)) (key : String) : JsValue :=
  match props with
  | [] => .undefined
  | (k, v) :: rest => if k == key then v else getProp rest key

/-! ## `parseInt` -/

/-- The characters `parseInt` skips at the start: WhiteSpace and LineTerminator code points. -/
def isStrWhiteSpaceChar (c : Char) : Bool :=
  let n := c.toNat
  n == 0x09 || n == 0x0A || n == 0x0B || n == 0x0C || n == 0x0D || n == 0x20 || n == 0xA0
    || n == 0x1680 || (0x2000 ≤ n && n ≤ 0x200A) || n == 0x2028 || n == 0x2029
    || n == 0x202F || n == 0x205F || n == 0x3000 || n == 0xFEFF

/-- The value of a character as a digit in some radix up to 36. -/
def digitValue (c : Char) : Option Nat :=
  let n := c.toNat
  if 48 ≤ n && n ≤ 57 then some (n - 48)
  else if 97 ≤ n && n ≤ 122 then some (n - 87)
  else if 65 ≤ n && n ≤ 90 then some (n - 55)
  else none

/-- The digits of the longest prefix made of radix-`radix` digits. -/
def takeDigits (radix : Nat) : List Char → List Nat
  | [] => []
  | c :: cs =>
    match digitValue c with
    | some d => if d < radix then d :: takeDigits radix cs else []
    | none => []

/-- The integer a digit sequence denotes, most significant digit first. -/
def digitsValue (radix : Nat) (ds : List Nat) : Nat :=
  ds.foldl (fun acc d => acc * radix + d) 0

/-- The sign step of `parseInt`: a leading `-` or `+` is removed, `-` negates. -/
def splitSign : List Char → Int × List Char
  | '-' :: rest => (-1, rest)
  | '+' :: rest => (1, rest)
  | cs => (1, cs)

/-- The radix step of `parseInt` called without a radix: `0x` or `0X` selects 16, else 10. -/
def splitRadix : List Char → Nat × List Char
  | '0' :: 'x' :: rest => (16, rest)
  | '0' :: 'X' :: rest => (16, rest)
  | cs => (10, cs)

/-- The Numbers `parseInt` can return. Every finite one is an integer: `int n` is the double
whose value is `n`, with `int 0` for `+0`. -/
inductive JsNumber where
  | nan : JsNumber
  | negZero : JsNumber
  | posInf : JsNumber
  | negInf : JsNumber
  | int (n : Int) : JsNumber
  deriving DecidableEq

/-- How many times `m` must be halved to fall below `2^53`, that is, how many low bits of `m`
do not fit in the 53-bit significand of a double. The first argument bounds the recursion. -/
def excessBits : Nat → Nat → Nat
  | 0, _ => 0
  | fuel + 1, m => if m < 2 ^ 53 then 0 else excessBits fuel (m / 2) + 1

/-- The double nearest to a natural number, ties to the even significand; `none` when the
result is beyond the largest finite double. -/
def roundToDouble (m : Nat) : Option Nat :=
  let e := excessBits m m
  if e = 0 then some m
  else
    let q := m / 2 ^ e
    let r := m % 2 ^ e
    let half := 2 ^ (e - 1)
    let rounded := if half < r || (r == half && q % 2 == 1) then q + 1 else q
    if 2 ^ 1024 ≤ rounded * 2 ^ e then none else some (rounded * 2 ^ e)

/-- The Number value of `sign * m`: the last two steps of `parseInt`. -/
def toNumber (sign : Int) (m : Nat) : JsNumber :=
  if m = 0 then (if sign < 0 then .negZero else .int 0)
  else
    match roundToDouble m with
    | some r => .int (sign * (r : Int))
    | none => if sign < 0 then .negInf else .posInf

/-- The call `parseInt(s)` on a string, without a radix: leading white space is skipped, a
sign and a `0x` prefix are read, and the longest run of digits is converted, exactly rounded
to a double. No digit gives `NaN`. -/
def parseInt (s : String) : JsNumber :=
  let trimmed := s.toList.dropWhile isStrWhiteSpaceChar
  let signed := splitSign trimmed
  let based := splitRadix signed.2
  let digits := takeDigits based.1 based.2
  if digits.isEmpty then .nan else toNumber signed.1 (digitsValue based.1 digits)

/-- The expression `a === b` on two Numbers: `NaN` equals nothing, the two zeros are equal. -/
def strictEqualsNum : JsNumber → JsNumber → Bool
  | .nan, _ => false
  | _, .nan => false
  | .negZero, .negZero => true
  | .negZero, .int n => n == 0
  | .int n, .negZero => n == 0
  | .int a, .int b => a == b
  | .posInf, .posInf => true
  | .negInf, .negInf => true
  | _, _ => false

/-! ## Configuration -/

/-- The variables of `process.env` the handlers read. A variable is absent or a string. -/
structure Env where
  GEMINI_API_KEY : Option String
  SMTP_HOST : Option String
  SMTP_PORT : Option String
  SMTP_USER : Option String
  SMTP_PASS : Option String

/-- `ToBoolean` of `process.env.X`: false when absent or empty. -/
def envTruthy : Option String → Bool
  | some s => s != ""
  | none => false

/-- The expression `process.env.X || lit`. -/
def envOr (v : Option String) (lit : String) : String :=
  match v with
  | some s => if s != "" then s else lit
  | none => lit

/-- `ToString` of `process.env.X` inside a template literal. -/
def envStr : Option String → String
  | some s => s
  | none => "undefined"

/-- The client object `new GoogleGenAI({ apiKey })`. -/
structure GoogleGenAI where
  apiKey : String

/-- The start-up constant `ai`: a client when `GEMINI_API_KEY` is truthy, else `null`. -/
def ai (env : Env) : Option GoogleGenAI :=
  match env.GEMINI_API_KEY with
  | some apiKey => if apiKey != "" then some { apiKey := apiKey } else none
  | none => none

/-! ## Requests, external calls and effects -/

/-- A request as Express hands it to a handler. `req.body` is what the JSON middleware left
there: the parsed object or array, or `undefined` when no body was parsed and the middleware
sets no default. -/
structure Request where
  body : JsValue

/-- The error thrown when `undefined` or `null` is destructured. -/
def cannotDestructure : JsError :=
  { name := "TypeError", message := "Cannot destructure property of req.body." }

/-- The destructuring `const { ... } = req.body`. It throws on `undefined` and `null`. On an
object the names are read from its own properties (keys are distinct); every other value,
an array among them, has none of the properties the handlers read. -/
def destructure : JsValue → Except JsError (List (String × JsValue))
  | .undefined => .error cannotDestructure
  | .null => .error cannotDestructure
  | .bool _ => .ok []
  | .num _ => .ok []
  | .str _ => .ok []
  | .arr _ => .ok []
  | .obj props => .ok props

/-- The argument of `ai.models.generateContent`. -/
structure GenerateContentParameters where
  model : String
  contents : JsValue
  systemInstruction : String

/-- The part of the `generateContent` result the handler reads. -/
structure GenerateContentResponse where
  text : JsValue

/-- The `auth` object of the transport options. -/
structure TransportAuth where
  user : Option String
  pass : Option String

/-- The argument of `nodemailer.createTransport`. -/
structure TransportOptions where
  host : String
  port : JsNumber
  secure : Bool
  auth : TransportAuth

/-- The object `mailOptions` handed to `sendMail`. -/
structure MailOptions where
  from_ : String
  to_ : String
  subject : String
  text : String
  html : String

/-- The `nodemailer` module: both calls return or throw. A transporter is identified by the
options it was created from. -/
structure Nodemailer where
  createTransport : TransportOptions → Except JsError Unit
  sendMail : TransportOptions → MailOptions → Except JsError Unit

/-- What a handler does, one entry per action. `respond status body` is
`res.status(status).json(body)`; `res.json(body)` alone has status 200. `rejected error` is
an error thrown outside every `try`: the promise of the async handler rejects and the handler
does nothing more. -/
inductive Effect where
  | generateContent (params : GenerateContentParameters) : Effect
  | createTransport (options : TransportOptions) : Effect
  | sendMail (mail : MailOptions) : Effect
  | consoleError (label : String) (detail : Option JsError) : Effect
  | consoleLog (line : String) : Effect
  | respond (status : Nat) (body : List (String × JsValue)) : Effect
  | rejected (error : JsError) : Effect

/-! ## `POST /api/chat` -/

/-- The text sent when the service returns none. -/
def fallbackReply : String :=
  "I processed your request but could not generate a text response."

/-- The object passed to `generateContent` for a message. -/
def chatParams (message : JsValue) : GenerateContentParameters :=
  { model := "gemini-3-flash-preview",
    contents := message,
    systemInstruction := "You are ARKY, a helpful and secure AI agent for business operations. Keep responses concise and professional." }

/-- The handler of `POST /api/chat`. -/
def chatHandler (ai : Option GoogleGenAI)
    (generateContent : GoogleGenAI → GenerateContentParameters →
      Except JsError GenerateContentResponse)
    (req : Request) : List Effect :=
  match ai with
  | none => [.respond 500 [("error", .str "Server configuration error: Missing API Key.")]]
  | some client =>
    match destructure req.body with
    | .error thrown => [.rejected thrown]
    | .ok props =>
      let message := getProp props "message"
      if !truthy message then
        [.respond 400 [("error", .str "Message is required.")]]
      else
        match generateContent client (chatParams message) with
        | .ok response =>
          [.generateContent (chatParams message),
           .respond 200 [("reply", jsOr response.text (.str fallbackReply))]]
        | .error error =>
          [.generateContent (chatParams message),
           .consoleError "Gemini API Error:" (some error),
           .respond 500 [("error", .str "Failed to connect to AI service.")]]

/-! ## `POST /api/contact` -/

/-- The constant `interestLabel`. -/
def interestLabel (userType : JsValue) : String :=
  if strictEqualsStr userType "team" then "Custom Solution (Enterprise)"
  else "ARKY AI Agent (Individual)"

/-- The options object built for `nodemailer.createTransport`. -/
def transportOptions (env : Env) : TransportOptions :=
  let smtpPort := parseInt (envOr env.SMTP_PORT "587")
  { host := envOr env.SMTP_HOST "smtp.gmail.com",
    port := smtpPort,
    secure := strictEqualsNum smtpPort (.int 465),
    auth := { user := env.SMTP_USER, pass := env.SMTP_PASS } }

/-- The object literal `mailOptions`; its template literals are evaluated in source order and
the first substitution that cannot be converted to a string throws. -/
def mailOptions (env : Env) (firstName lastName email userType message : JsValue) :
    Except JsError MailOptions := do
  let label := interestLabel userType
  let sender := "\"GK Edge Website\" <" ++ envStr env.SMTP_USER ++ ">"
  let subjFirst ← toStr firstName
  let subjLast ← toStr lastName
  let subject := "New Lead: " ++ subjFirst ++ " " ++ subjLast ++ " - " ++ label
  let textFirst ← toStr firstName
  let textLast ← toStr lastName
  let textEmail ← toStr email
  let textMessage ← toStr (jsOr message (.str "No additional message provided."))
  let text := "\nNew Contact Form Submission\n\nName: " ++ textFirst ++ " " ++ textLast
    ++ "\nEmail: " ++ textEmail ++ "\nInterest: " ++ label ++ "\n\nMessage:\n" ++ textMessage
    ++ "\n            "
  let htmlFirst ← toStr firstName
  let htmlLast ← toStr lastName
  let htmlEmail ← toStr email
  let htmlMessage ← toStr (jsOr message (.str "No additional message provided."))
  let html := "\n                <h2>New Contact Form Submission</h2>\n                <p><strong>Name:</strong> "
    ++ htmlFirst ++ " " ++ htmlLast ++ "</p>\n                <p><strong>Email:</strong> "
    ++ htmlEmail ++ "</p>\n                <p><strong>Interest:</strong> " ++ label
    ++ "</p>\n                <br/>\n                <p><strong>Message:</strong></p>\n                <p>"
    ++ htmlMessage ++ "</p>\n            "
  pure { from_ := sender, to_ := "info@gkedgemedia.com", subject := subject, text := text,
         html := html }

/-- The `try` block of the contact handler: the effects performed and the error thrown, if
any. -/
def contactTry (env : Env) (mailer : Nodemailer)
    (firstName lastName email userType message : JsValue) : List Effect × Option JsError :=
  let options := transportOptions env
  match mailer.createTransport options with
  | .error e => ([.createTransport options], some e)
  | .ok _ =>
    match mailOptions env firstName lastName email userType message with
    | .error e => ([.createTransport options], some e)
    | .ok mail =>
      match mailer.sendMail options mail with
      | .error e => ([.createTransport options, .sendMail mail], some e)
      | .ok _ =>
        match toStr email with
        | .error e => ([.createTransport options, .sendMail mail], some e)
        | .ok emailText =>
          ([.createTransport options, .sendMail mail,
            .consoleLog ("Email sent successfully to info@gkedgemedia.com from " ++ emailText),
            .respond 200 [("success", .bool true), ("message", .str "Email sent successfully")]],
           none)

/-- The handler of `POST /api/contact`. -/
def contactHandler (env : Env) (mailer : Nodemailer) (req : Request) : List Effect :=
  match destructure req.body with
  | .error thrown => [.rejected thrown]
  | .ok props =>
    let firstName := getProp props "firstName"
    let lastName := getProp props "lastName"
    let email := getProp props "email"
    let userType := getProp props "userType"
    let message := getProp props "message"
    if !truthy firstName || !truthy email then
      [.respond 400 [("error", .str "Name and Email are required.")]]
    else if !envTruthy env.SMTP_USER || !envTruthy env.SMTP_PASS then
      [.consoleError "SMTP Configuration Error: Missing SMTP_USER or SMTP_PASS" none,
       .respond 500 [("error", .str "Server email configuration missing.")]]
    else
      match contactTry env mailer firstName lastName email userType message with
      | (done, none) => done
      | (done, some error) =>
        done ++ [.consoleError "Email Sending Error:" (some error),
                 .respond 500 [("error", .str "Failed to send email. Please try again later.")]]

/-! ## Reading a run -/

/-- The responses sent during a run, in order, as status and body. -/
def responses : List Effect → List (Nat × List (String × JsValue))
  | [] => []
  | .respond status body :: rest => (status, body) :: responses rest
  | _ :: rest => responses rest

/-- The `generateContent` calls made during a run, in order. -/
def generateCalls : List Effect → List GenerateContentParameters
  | [] => []
  | .generateContent params :: rest => params :: generateCalls rest
  | _ :: rest => generateCalls rest

/-- The `createTransport` calls made during a run, in order. -/
def transportCalls : List Effect → List TransportOptions
  | [] => []
  | .createTransport options :: rest => options :: transportCalls rest
  | _ :: rest => transportCalls rest

/-- The mails handed to `sendMail` during a run, in order. -/
def sentMails : List Effect → List MailOptions
  | [] => []
  | .sendMail mail :: rest => mail :: sentMails rest
  | _ :: rest => sentMails rest

/-! ## Concrete inputs -/

/-- A configuration with no variable set. -/
def emptyEnv : Env :=
  { GEMINI_API_KEY := none, SMTP_HOST := none, SMTP_PORT := none, SMTP_USER := none,
    SMTP_PASS := none }

/-- A configuration with an API key and SMTP credentials, every other variable unset. -/
def sampleEnv : Env :=
  { GEMINI_API_KEY := some "key-1", SMTP_HOST := none, SMTP_PORT := none,
    SMTP_USER := some "mailer@gkedgemedia.com", SMTP_PASS := some "secret" }

/-- A configuration with an API key but an empty SMTP password. -/
def noPassEnv : Env :=
  { GEMINI_API_KEY := some "key-1", SMTP_HOST := some "smtp.example.org",
    SMTP_PORT := some "465", SMTP_USER := some "mailer@gkedgemedia.com", SMTP_PASS := some "" }

/-- A configuration with credentials, a host and the port text `465`. -/
def secureEnv : Env :=
  { GEMINI_API_KEY := none, SMTP_HOST := some "smtp.example.org", SMTP_PORT := some "465",
    SMTP_USER := some "mailer@gkedgemedia.com", SMTP_PASS := some "secret" }

/-- A service that answers every prompt with the same text. -/
def helloService (_ : GoogleGenAI) (_ : GenerateContentParameters) :
    Except JsError GenerateContentResponse :=
  .ok { text := .str "Hello." }

/-- A service that answers every prompt without text. -/
def silentService (_ : GoogleGenAI) (_ : GenerateContentParameters) :
    Except JsError GenerateContentResponse :=
  .ok { text := .undefined }

/-- A service whose every call throws the given error. -/
def failingService (e : JsError) (_ : GoogleGenAI) (_ : GenerateContentParameters) :
    Except JsError GenerateContentResponse :=
  .error e

/-- A mail module whose calls all return. -/
def okMailer : Nodemailer :=
  { createTransport := fun _ => .ok (), sendMail := fun _ _ => .ok () }

/-- A mail module whose `sendMail` throws the given error. -/
def failingMailer (e : JsError) : Nodemailer :=
  { createTransport := fun _ => .ok (), sendMail := fun _ _ => .error e }

/-- An error as an SMTP server might cause it. -/
def smtpError : JsError :=
  { name := "Error", message := "Invalid login: 535 Authentication failed for secret" }

/-- The client built from the key `key-1`. -/
def sampleClient : GoogleGenAI :=
  { apiKey := "key-1" }

/-- The request `{}`. -/
def emptyRequest : Request :=
  { body := .obj [] }

/-- A request for which no body was parsed: `req.body` is `undefined`. -/
def bodylessRequest : Request :=
  { body := .undefined }

/-- The chat request `{message: ""}`. -/
def blankChatRequest : Request :=
  { body := .obj [("message", .str "")] }

/-- The chat request `{message: "Hi"}`. -/
def hiChatRequest : Request :=
  { body := .obj [("message", .str "Hi")] }

/-- The properties of the contact request `{firstName: "Jane", email: "jane@x.com"}`. -/
def janeProps : List (String × JsValue) :=
  [("firstName", .str "Jane"), ("email", .str "jane@x.com")]

/-- The contact request `{firstName: "Jane", email: "jane@x.com"}`. -/
def janeRequest : Request :=
  { body := .obj janeProps }

/-- The mail composed for `janeRequest` under `sampleEnv`. -/
def janeMail : MailOptions :=
  { from_ := "\"GK Edge Website\" <mailer@gkedgemedia.com>",
    to_ := "info@gkedgemedia.com",
    subject := "New Lead: Jane undefined - ARKY AI Agent (Individual)",
    text := "\nNew Contact Form Submission\n\nName: Jane undefined\nEmail: jane@x.com\nInterest: ARKY AI Agent (Individual)\n\nMessage:\nNo additional message provided.\n            ",
    html := "\n                <h2>New Contact Form Submission</h2>\n                <p><strong>Name:</strong> Jane undefined</p>\n                <p><strong>Email:</strong> jane@x.com</p>\n                <p><strong>Interest:</strong> ARKY AI Agent (Individual)</p>\n                <br/>\n                <p><strong>Message:</strong></p>\n                <p>No additional message provided.</p>\n            " }

/-- The contact request `{lastName: "Doe", email: "jane@x.com"}`, without a first name. -/
def noFirstNameRequest : Request :=
  { body := .obj [("lastName", .str "Doe"), ("email", .str "jane@x.com")] }

/-! ## Basic facts -/

theorem truthy_str (s : String) : truthy (.str s) = true ↔ s ≠ "" := by
  simp [truthy]

theorem truthy_of_missing {v : JsValue}
    (h : v = .undefined ∨ v = .null ∨ v = .str "") : truthy v = false := by
  rcases h with h | h | h <;> subst h <;> simp [truthy]

theorem envTruthy_of_absent {v : Option String} (h : v = none ∨ v = some "") :
    envTruthy v = false := by
  rcases h with h | h <;> subst h <;> simp [envTruthy]

theorem ai_of_absent {env : Env}
    (h : env.GEMINI_API_KEY = none ∨ env.GEMINI_API_KEY = some "") : ai env = none := by
  rcases h with h | h <;> simp [ai, h]

theorem ai_of_present {env : Env} (h : envTruthy env.GEMINI_API_KEY = true) :
    ∃ key, env.GEMINI_API_KEY = some key ∧ ai env = some { apiKey := key } := by
  cases hk : env.GEMINI_API_KEY with
  | none => simp [hk, envTruthy] at h
  | some key =>
    refine ⟨key, rfl, ?_⟩
    simp only [hk, envTruthy, bne_iff_ne, ne_eq] at h
    simp [ai, hk, h]

theorem destructure_defined {v : JsValue} (hu : v ≠ .undefined) (hn : v ≠ .null) :
    ∃ props, destructure v = .ok props := by
  cases v with
  | undefined => exact absurd rfl hu
  | null => exact absurd rfl hn
  | bool b => exact ⟨_, rfl⟩
  | num n => exact ⟨_, rfl⟩
  | str s => exact ⟨_, rfl⟩
  | arr items => exact ⟨_, rfl⟩
  | obj props => exact ⟨_, rfl⟩

/-! ## `POST /api/chat`: validation and configuration -/

/-- C1 (as amended): a chat request with a parsed body whose `message` is `undefined`, `null`
or the empty string gets status 400 with an `error` field when the API key is configured, and
status 500 with the configuration error when it is not; in both cases `generateContent` is
not called. -/
theorem chat_missing_message (env : Env)
    (generateContent : GoogleGenAI → GenerateContentParameters →
      Except JsError GenerateContentResponse)
    (req : Request) (props : List (String × JsValue))
    (hbody : destructure req.body = .ok props)
    (hmsg : getProp props "message" = .undefined ∨ getProp props "message" = .null
      ∨ getProp props "message" = .str "") :
    (envTruthy env.GEMINI_API_KEY = true →
      chatHandler (ai env) generateContent req
        = [.respond 400 [("error", .str "Message is required.")]]) ∧
    (envTruthy env.GEMINI_API_KEY = false →
      chatHandler (ai env) generateContent req
        = [.respond 500 [("error", .str "Server configuration error: Missing API Key.")]]) ∧
    generateCalls (chatHandler (ai env) generateContent req) = [] := by
  have hfalse := truthy_of_missing hmsg
  cases hai : ai env with
  | none =>
    refine ⟨?_, ?_, ?_⟩
    · intro hkey
      obtain ⟨key, _, hsome⟩ := ai_of_present hkey
      rw [hai] at hsome
      cases hsome
    · intro _
      simp [chatHandler]
    · simp [chatHandler, generateCalls]
  | some client =>
    refine ⟨?_, ?_, ?_⟩
    · intro _
      simp [chatHandler, hbody, hfalse]
    · intro hkey
      have : ai env = none := by
        cases hk : env.GEMINI_API_KEY with
        | none => simp [ai, hk]
        | some key =>
          simp only [hk, envTruthy, bne_eq_false_iff_eq] at hkey
          simp [ai, hk, hkey]
      rw [hai] at this
      cases this
    · simp [chatHandler, hbody, hfalse, generateCalls]

theorem chat_missing_message_witness :
    (envTruthy sampleEnv.GEMINI_API_KEY = true →
      chatHandler (ai sampleEnv) helloService blankChatRequest
        = [.respond 400 [("error", .str "Message is required.")]]) ∧
    (envTruthy sampleEnv.GEMINI_API_KEY = false →
      chatHandler (ai sampleEnv) helloService blankChatRequest
        = [.respond 500 [("error", .str "Server configuration error: Missing API Key.")]]) ∧
    generateCalls (chatHandler (ai sampleEnv) helloService blankChatRequest) = [] :=
  chat_missing_message sampleEnv helloService blankChatRequest [("message", .str "")] rfl
    (Or.inr (Or.inr rfl))

/-- C1 (as stated) fails: with no API key the request `{}` gets status 500, not 400. -/
theorem chat_missing_message_no_key_status :
    destructure emptyRequest.body = .ok [] ∧
    getProp [] "message" = .undefined ∧
    responses (chatHandler (ai emptyEnv) helloService emptyRequest)
      = [(500, [("error", .str "Server configuration error: Missing API Key.")])] ∧
    (responses (chatHandler (ai emptyEnv) helloService emptyRequest)).map Prod.fst ≠ [400] := by
  refine ⟨rfl, rfl, rfl, ?_⟩
  decide

/-- C2: when `GEMINI_API_KEY` is unset or empty the client `ai` is `null`, and every chat
request, whatever its body (even none) and whatever the service would do, performs a single
effect: the response with status 500 and body
`{error: "Server configuration error: Missing API Key."}`; no external call is made. -/
theorem chat_without_key (env : Env)
    (generateContent : GoogleGenAI → GenerateContentParameters →
      Except JsError GenerateContentResponse)
    (req : Request)
    (hkey : env.GEMINI_API_KEY = none ∨ env.GEMINI_API_KEY = some "") :
    ai env = none ∧
    chatHandler (ai env) generateContent req
      = [.respond 500 [("error", .str "Server configuration error: Missing API Key.")]] := by
  have hai := ai_of_absent hkey
  refine ⟨hai, ?_⟩
  rw [hai]
  rfl

theorem chat_without_key_witness :
    ai emptyEnv = none ∧
    chatHandler (ai emptyEnv) helloService hiChatRequest
      = [.respond 500 [("error", .str "Server configuration error: Missing API Key.")]] :=
  chat_without_key emptyEnv helloService hiChatRequest (Or.inl rfl)

/-! ## `POST /api/contact`: validation and configuration -/

/-- C3: a contact request with a parsed body whose `firstName` or `email` is `undefined`,
`null` or the empty string performs, for every SMTP configuration and mail module, a single
effect: the response with status 400 and body `{error: "Name and Email are required."}`; no
transport is created and no mail is sent. -/
theorem contact_missing_field (env : Env) (mailer : Nodemailer) (req : Request)
    (props : List (String × JsValue))
    (hbody : destructure req.body = .ok props)
    (hmiss :
      (getProp props "firstName" = .undefined ∨ getProp props "firstName" = .null
        ∨ getProp props "firstName" = .str "") ∨
      (getProp props "email" = .undefined ∨ getProp props "email" = .null
        ∨ getProp props "email" = .str "")) :
    contactHandler env mailer req
      = [.respond 400 [("error", .str "Name and Email are required.")]] := by
  rcases hmiss with h | h
  · simp [contactHandler, hbody, truthy_of_missing h]
  · simp [contactHandler, hbody, truthy_of_missing h]

theorem contact_missing_field_witness :
    contactHandler sampleEnv okMailer noFirstNameRequest
      = [.respond 400 [("error", .str "Name and Email are required.")]] :=
  contact_missing_field sampleEnv okMailer noFirstNameRequest
    [("lastName", .str "Doe"), ("email", .str "jane@x.com")] rfl (Or.inl (Or.inl rfl))

/-- C4: a contact request with truthy `firstName` and `email` (every non-empty string is
truthy), under a configuration whose `SMTP_USER` or `SMTP_PASS` is unset or empty, logs the
configuration diagnostic and responds with status 500 and body
`{error: "Server email configuration missing."}`, whatever the other fields and SMTP
settings are; no transport is created and `sendMail` is not called. -/
theorem contact_without_credentials (env : Env) (mailer : Nodemailer) (req : Request)
    (props : List (String × JsValue))
    (hbody : destructure req.body = .ok props)
    (hfirst : truthy (getProp props "firstName") = true)
    (hemail : truthy (getProp props "email") = true)
    (hcred : (env.SMTP_USER = none ∨ env.SMTP_USER = some "") ∨
      (env.SMTP_PASS = none ∨ env.SMTP_PASS = some "")) :
    contactHandler env mailer req
      = [.consoleError "SMTP Configuration Error: Missing SMTP_USER or SMTP_PASS" none,
         .respond 500 [("error", .str "Server email configuration missing.")]] ∧
    sentMails (contactHandler env mailer req) = [] ∧
    transportCalls (contactHandler env mailer req) = [] := by
  have hrun : contactHandler env mailer req
      = [.consoleError "SMTP Configuration Error: Missing SMTP_USER or SMTP_PASS" none,
         .respond 500 [("error", .str "Server email configuration missing.")]] := by
    rcases hcred with h | h
    · simp [contactHandler, hbody, hfirst, hemail, envTruthy_of_absent h]
    · simp [contactHandler, hbody, hfirst, hemail, envTruthy_of_absent h]
  refine ⟨hrun, ?_, ?_⟩ <;> rw [hrun] <;> rfl

theorem contact_without_credentials_witness :
    contactHandler noPassEnv okMailer janeRequest
      = [.consoleError "SMTP Configuration Error: Missing SMTP_USER or SMTP_PASS" none,
         .respond 500 [("error", .str "Server email configuration missing.")]] ∧
    sentMails (contactHandler noPassEnv okMailer janeRequest) = [] ∧
    transportCalls (contactHandler noPassEnv okMailer janeRequest) = [] :=
  contact_without_credentials noPassEnv okMailer janeRequest janeProps rfl rfl rfl
    (Or.inr (Or.inr rfl))

/-! ## Errors thrown by the external calls -/

/-- C5: whenever the external call throws an error `e` (`generateContent` in the chat
handler; `createTransport` or `sendMail` in the contact handler), the handler sends exactly
one response, with status 500 and a fixed body that does not depend on `e`:
`{error: "Failed to connect to AI service."}` for chat and
`{error: "Failed to send email. Please try again later."}` for contact. The response is
therefore the same for any two thrown errors. -/
theorem upstream_error_generic (e : JsError) (client : GoogleGenAI)
    (generateContent : GoogleGenAI → GenerateContentParameters →
      Except JsError GenerateContentResponse)
    (chatReq : Request) (chatProps : List (String × JsValue))
    (env : Env) (mailer : Nodemailer)
    (contactReq : Request) (contactProps : List (String × JsValue))
    (hchatBody : destructure chatReq.body = .ok chatProps)
    (hmsg : truthy (getProp chatProps "message") = true)
    (hgen : generateContent client (chatParams (getProp chatProps "message")) = .error e)
    (hcontactBody : destructure contactReq.body = .ok contactProps)
    (hfirst : truthy (getProp contactProps "firstName") = true)
    (hemail : truthy (getProp contactProps "email") = true)
    (huser : envTruthy env.SMTP_USER = true) (hpass : envTruthy env.SMTP_PASS = true)
    (hmail : mailer.createTransport (transportOptions env) = .error e ∨
      (mailer.createTransport (transportOptions env) = .ok () ∧
        ∃ mail,
          mailOptions env (getProp contactProps "firstName")
            (getProp contactProps "lastName") (getProp contactProps "email")
            (getProp contactProps "userType") (getProp contactProps "message") = .ok mail ∧
          mailer.sendMail (transportOptions env) mail = .error e)) :
    responses (chatHandler (some client) generateContent chatReq)
      = [(500, [("error", .str "Failed to connect to AI service.")])] ∧
    responses (contactHandler env mailer contactReq)
      = [(500, [("error", .str "Failed to send email. Please try again later.")])] := by
  constructor
  · simp [chatHandler, hchatBody, hmsg, hgen, responses]
  · rcases hmail with hct | ⟨hct, mail, hcompose, hsend⟩
    · simp [contactHandler, contactTry, hcontactBody, hfirst, hemail, huser, hpass, hct,
        responses]
    · simp [contactHandler, contactTry, hcontactBody, hfirst, hemail, huser, hpass, hct,
        hcompose, hsend, responses]

theorem upstream_error_generic_witness :
    responses (chatHandler (some sampleClient) (failingService smtpError) hiChatRequest)
      = [(500, [("error", .str "Failed to connect to AI service.")])] ∧
    responses (contactHandler sampleEnv (failingMailer smtpError) janeRequest)
      = [(500, [("error", .str "Failed to send email. Please try again later.")])] :=
  upstream_error_generic smtpError sampleClient (failingService smtpError)
    hiChatRequest [("message", .str "Hi")] sampleEnv (failingMailer smtpError) janeRequest
    janeProps rfl rfl rfl rfl rfl rfl rfl rfl (Or.inr ⟨rfl, _, rfl, rfl⟩)

/-! ## The interest label -/

/-- C6: the interest label is "Custom Solution (Enterprise)" if and only if `userType` is
exactly the string "team", and "ARKY AI Agent (Individual)" for every other value, among
them an absent `userType`, "individual", "Team", " team" and every non-string. -/
theorem interestLabel_team_iff (userType : JsValue) :
    (interestLabel userType = "Custom Solution (Enterprise)" ↔ userType = .str "team") ∧
    (interestLabel userType = "ARKY AI Agent (Individual)" ↔ userType ≠ .str "team") ∧
    interestLabel (getProp [] "userType") = "ARKY AI Agent (Individual)" ∧
    interestLabel (.str "individual") = "ARKY AI Agent (Individual)" ∧
    interestLabel (.str "Team") = "ARKY AI Agent (Individual)" ∧
    interestLabel (.str " team") = "ARKY AI Agent (Individual)" ∧
    ((∀ s, userType ≠ .str s) → interestLabel userType = "ARKY AI Agent (Individual)") := by
  have hne : ("ARKY AI Agent (Individual)" : String) ≠ "Custom Solution (Enterprise)" := by
    decide
  refine ⟨?_, ?_, by decide, by decide, by decide, by decide, ?_⟩
  · cases userType <;> simp [interestLabel, strictEqualsStr, hne]
  · cases userType <;> simp [interestLabel, strictEqualsStr, hne.symm]
  · intro hns
    cases userType <;> simp [interestLabel, strictEqualsStr]
    exact absurd rfl (hns _)

theorem interestLabel_team_iff_witness :
    interestLabel (.str "team") = "Custom Solution (Enterprise)" :=
  (interestLabel_team_iff (.str "team")).1.mpr rfl

/-! ## The composed mail -/

theorem mailOptions_subject {env : Env} {firstName lastName email userType message : JsValue}
    {mail : MailOptions}
    (h : mailOptions env firstName lastName email userType message = .ok mail) :
    ∃ first last, toStr firstName = .ok first ∧ toStr lastName = .ok last ∧
      mail.subject = "New Lead: " ++ first ++ " " ++ last ++ " - " ++ interestLabel userType := by
  unfold mailOptions at h
  cases hf : toStr firstName with
  | error e => simp [hf, bind, Except.bind] at h
  | ok first =>
    cases hl : toStr lastName with
    | error e => simp [hf, hl, bind, Except.bind] at h
    | ok last =>
      cases he : toStr email with
      | error e => simp [hf, hl, he, bind, Except.bind] at h
      | ok emailText =>
        cases hm : toStr (jsOr message (.str "No additional message provided.")) with
        | error e => simp [hf, hl, he, hm, bind, Except.bind] at h
        | ok messageText =>
          simp only [hf, hl, he, hm, bind, Except.bind, pure, Except.pure, Except.ok.injEq] at h
          exact ⟨first, last, rfl, rfl, by rw [← h]⟩

theorem sentMails_contactTry {env : Env} {mailer : Nodemailer}
    {firstName lastName email userType message : JsValue} {mail : MailOptions}
    (h : mail ∈ sentMails (contactTry env mailer firstName lastName email userType message).1) :
    mailOptions env firstName lastName email userType message = .ok mail := by
  unfold contactTry at h
  cases hct : mailer.createTransport (transportOptions env) with
  | error e => simp [hct, sentMails] at h
  | ok u =>
    cases hc : mailOptions env firstName lastName email userType message with
    | error e => simp [hct, hc, sentMails] at h
    | ok composed =>
      cases hs : mailer.sendMail (transportOptions env) composed with
      | error e =>
        simp [hct, hc, hs, sentMails] at h
        rw [h]
      | ok u2 =>
        cases he : toStr email with
        | error e =>
          simp [hct, hc, hs, he, sentMails] at h
          rw [h]
        | ok emailText =>
          simp [hct, hc, hs, he, sentMails] at h
          rw [h]

theorem sentMails_append_catch (done : List Effect) (label : String) (detail : Option JsError)
    (status : Nat) (body : List (String × JsValue)) :
    sentMails (done ++ [.consoleError label detail, .respond status body]) = sentMails done := by
  induction done with
  | nil => rfl
  | cons eff rest ih => cases eff <;> simp [sentMails, ih]

theorem sentMails_contactHandler {env : Env} {mailer : Nodemailer} {req : Request}
    {props : List (String × JsValue)} {mail : MailOptions}
    (hbody : destructure req.body = .ok props)
    (h : mail ∈ sentMails (contactHandler env mailer req)) :
    mailOptions env (getProp props "firstName") (getProp props "lastName")
      (getProp props "email") (getProp props "userType") (getProp props "message")
      = .ok mail := by
  unfold contactHandler at h
  simp only [hbody] at h
  split at h
  · simp [sentMails] at h
  · split at h
    · simp [sentMails] at h
    · split at h
      · rename_i done heq
        apply sentMails_contactTry
        rw [heq]
        exact h
      · rename_i done error heq
        apply sentMails_contactTry
        rw [heq]
        rw [sentMails_append_catch] at h
        exact h

/-- C7: every mail the contact handler hands to `sendMail` has the subject
"New Lead: " ++ firstName ++ " " ++ lastName ++ " - " ++ interestLabel, each field as the
template literal renders it: a string as itself, an omitted `lastName` as the text
"undefined" (it is not replaced by the empty string). In particular, under every
configuration with SMTP credentials and a transport that can be created, the request
`{firstName: "Jane", email: "jane@x.com"}` is sent with exactly the subject
"New Lead: Jane undefined - ARKY AI Agent (Individual)". -/
theorem contact_subject (env : Env) (mailer : Nodemailer) (req : Request)
    (props : List (String × JsValue)) (mail : MailOptions)
    (hbody : destructure req.body = .ok props)
    (huser : envTruthy env.SMTP_USER = true) (hpass : envTruthy env.SMTP_PASS = true)
    (hct : mailer.createTransport (transportOptions env) = .ok ())
    (hsent : mail ∈ sentMails (contactHandler env mailer req)) :
    (∃ first last,
      toStr (getProp props "firstName") = .ok first ∧
      toStr (getProp props "lastName") = .ok last ∧
      mail.subject = "New Lead: " ++ first ++ " " ++ last ++ " - "
        ++ interestLabel (getProp props "userType")) ∧
    (∀ s, toStr (.str s) = .ok s) ∧
    toStr (getProp janeProps "lastName") = .ok "undefined" ∧
    (sentMails (contactHandler env mailer janeRequest)).map (fun m => m.subject)
      = ["New Lead: Jane undefined - ARKY AI Agent (Individual)"] := by
  refine ⟨mailOptions_subject (sentMails_contactHandler hbody hsent), fun _ => rfl, rfl, ?_⟩
  have hcompose : ∃ composed,
      mailOptions env (.str "Jane") .undefined (.str "jane@x.com") .undefined .undefined
        = .ok composed := ⟨_, rfl⟩
  obtain ⟨composed, hc⟩ := hcompose
  have hsubj : composed.subject = "New Lead: Jane undefined - ARKY AI Agent (Individual)" := by
    obtain ⟨first, last, hf, hl, hs⟩ := mailOptions_subject hc
    have hf2 : first = "Jane" := by
      simp only [toStr, Except.ok.injEq] at hf
      exact hf.symm
    have hl2 : last = "undefined" := by
      simp only [toStr, Except.ok.injEq] at hl
      exact hl.symm
    rw [hs, hf2, hl2]
    decide
  have hjane : destructure janeRequest.body = .ok janeProps := rfl
  have hfields : getProp janeProps "firstName" = .str "Jane" ∧
      getProp janeProps "lastName" = .undefined ∧
      getProp janeProps "email" = .str "jane@x.com" ∧
      getProp janeProps "userType" = .undefined ∧
      getProp janeProps "message" = .undefined := ⟨rfl, rfl, rfl, rfl, rfl⟩
  obtain ⟨h1, h2, h3, h4, h5⟩ := hfields
  have ht : truthy (.str "Jane") = true ∧ truthy (.str "jane@x.com") = true := ⟨rfl, rfl⟩
  unfold contactHandler
  simp only [hjane, h1, h2, h3, h4, h5, ht.1, ht.2, huser, hpass, contactTry, hct, hc]
  cases mailer.sendMail (transportOptions env) composed with
  | error e => simp [sentMails, hsubj]
  | ok u => simp [sentMails, hsubj, toStr]

set_option maxRecDepth 8000 in
theorem contact_subject_witness :
    (∃ first last,
      toStr (getProp janeProps "firstName") = .ok first ∧
      toStr (getProp janeProps "lastName") = .ok last ∧
      janeMail.subject = "New Lead: " ++ first ++ " " ++ last ++ " - "
        ++ interestLabel (getProp janeProps "userType")) ∧
    (∀ s, toStr (.str s) = .ok s) ∧
    toStr (getProp janeProps "lastName") = .ok "undefined" ∧
    (sentMails (contactHandler sampleEnv okMailer janeRequest)).map (fun m => m.subject)
      = ["New Lead: Jane undefined - ARKY AI Agent (Individual)"] :=
  contact_subject sampleEnv okMailer janeRequest janeProps janeMail rfl rfl rfl rfl
    (List.mem_singleton.mpr rfl)

/-! ## `parseInt` on decimal digit strings -/

theorem digitValue_digitChar {d : Nat} (h : d < 10) : digitValue (Nat.digitChar d) = some d := by
  interval_cases d <;> rfl

theorem isStrWhiteSpaceChar_digitChar {d : Nat} (h : d < 10) :
    isStrWhiteSpaceChar (Nat.digitChar d) = false := by
  interval_cases d <;> rfl

theorem splitSign_digitChar {d : Nat} (h : d < 10) (cs : List Char) :
    splitSign (Nat.digitChar d :: cs) = (1, Nat.digitChar d :: cs) := by
  interval_cases d <;> rfl

theorem splitRadix_digitChar {d : Nat} (h : d < 10) (ds : List Nat) (hds : ∀ x ∈ ds, x < 10) :
    splitRadix (Nat.digitChar d :: ds.map Nat.digitChar)
      = (10, Nat.digitChar d :: ds.map Nat.digitChar) := by
  cases ds with
  | nil => interval_cases d <;> rfl
  | cons d2 rest =>
    have h2 : d2 < 10 := hds d2 (List.mem_cons_self _ _)
    simp only [List.map_cons]
    interval_cases d <;> interval_cases d2 <;> rfl

theorem takeDigits_digitChar (ds : List Nat) (hds : ∀ x ∈ ds, x < 10) :
    takeDigits 10 (ds.map Nat.digitChar) = ds := by
  induction ds with
  | nil => rfl
  | cons d rest ih =>
    have hd : d < 10 := hds d (List.mem_cons_self _ _)
    have hrest : ∀ x ∈ rest, x < 10 := fun x hx => hds x (List.mem_cons_of_mem _ hx)
    simp [takeDigits, digitValue_digitChar hd, hd, ih hrest]

theorem foldl_digits (ds : List Nat) (acc : Nat) :
    ds.foldl (fun a d => a * 10 + d) acc
      = acc * 10 ^ ds.length + Nat.ofDigits 10 ds.reverse := by
  induction ds generalizing acc with
  | nil => simp
  | cons d rest ih =>
    rw [List.foldl_cons, ih, List.reverse_cons, Nat.ofDigits_append, Nat.ofDigits_singleton,
      List.length_reverse, List.length_cons]
    ring

theorem digitsValue_eq_ofDigits (ds : List Nat) :
    digitsValue 10 ds = Nat.ofDigits 10 ds.reverse := by
  unfold digitsValue
  rw [foldl_digits]
  simp

theorem roundToDouble_small {m : Nat} (h : m < 2 ^ 53) : roundToDouble m = some m := by
  have he : excessBits m m = 0 := by
    cases m with
    | zero => rfl
    | succ k =>
      unfold excessBits
      rw [if_pos h]
  simp [roundToDouble, he]

theorem toNumber_small {m : Nat} (h : m < 2 ^ 53) : toNumber 1 m = .int (m : Int) := by
  unfold toNumber
  by_cases hm : m = 0
  · simp [hm]
  · simp [hm, roundToDouble_small h]

theorem parseInt_digits (ds : List Nat) (hne : ds ≠ []) (hds : ∀ x ∈ ds, x < 10)
    (hsmall : Nat.ofDigits 10 ds.reverse < 2 ^ 53) :
    parseInt (String.mk (ds.map Nat.digitChar)) = .int (Nat.ofDigits 10 ds.reverse : Nat) := by
  cases ds with
  | nil => exact absurd rfl hne
  | cons d rest =>
    have hd : d < 10 := hds d (List.mem_cons_self _ _)
    have hrest : ∀ x ∈ rest, x < 10 := fun x hx => hds x (List.mem_cons_of_mem _ hx)
    have htake := takeDigits_digitChar (d :: rest) hds
    simp only [List.map_cons] at htake
    unfold parseInt
    simp only [String.toList, List.map_cons]
    rw [List.dropWhile_cons_of_neg (by simp [isStrWhiteSpaceChar_digitChar hd])]
    simp only [splitSign_digitChar hd, splitRadix_digitChar hd rest hrest, htake]
    simp only [List.isEmpty_cons, Bool.false_eq_true, if_false]
    rw [digitsValue_eq_ofDigits]
    exact toNumber_small hsmall

theorem strictEqualsNum_int_iff (a : JsNumber) (n : Int) (hn : n ≠ 0) :
    strictEqualsNum a (.int n) = true ↔ a = .int n := by
  cases a with
  | nan => simp [strictEqualsNum]
  | negZero => simp [strictEqualsNum, hn]
  | posInf => simp [strictEqualsNum]
  | negInf => simp [strictEqualsNum]
  | int m => simp [strictEqualsNum]

/-! ## The transport -/

theorem transportCalls_append_catch (done : List Effect) (label : String)
    (detail : Option JsError) (status : Nat) (body : List (String × JsValue)) :
    transportCalls (done ++ [.consoleError label detail, .respond status body])
      = transportCalls done := by
  induction done with
  | nil => rfl
  | cons eff rest ih => cases eff <;> simp [transportCalls, ih]

theorem transportCalls_contactTry (env : Env) (mailer : Nodemailer)
    (firstName lastName email userType message : JsValue) :
    transportCalls (contactTry env mailer firstName lastName email userType message).1
      = [transportOptions env] := by
  unfold contactTry
  cases hct : mailer.createTransport (transportOptions env) with
  | error e => simp [hct, transportCalls]
  | ok u =>
    cases hc : mailOptions env firstName lastName email userType message with
    | error e => simp [hct, hc, transportCalls]
    | ok composed =>
      cases hs : mailer.sendMail (transportOptions env) composed with
      | error e => simp [hct, hc, hs, transportCalls]
      | ok u2 =>
        cases he : toStr email with
        | error e => simp [hct, hc, hs, he, transportCalls]
        | ok emailText => simp [hct, hc, hs, he, transportCalls]

theorem transportOptions_port (env : Env) :
    (transportOptions env).port
      = (match env.SMTP_PORT with
          | some text => if text = "" then .int 587 else parseInt text
          | none => .int 587) := by
  have h587 : parseInt "587" = .int 587 := by decide
  cases hp : env.SMTP_PORT with
  | none => simp [transportOptions, envOr, hp, h587]
  | some text => by_cases hempty : text = "" <;> simp [transportOptions, envOr, hp, hempty, h587]

theorem transportOptions_secure (env : Env) :
    (transportOptions env).secure = true ↔ (transportOptions env).port = .int 465 := by
  simp only [transportOptions]
  exact strictEqualsNum_int_iff _ 465 (by decide)

set_option exponentiation.threshold 1100 in
/-- C8: under every configuration with SMTP credentials, a contact request with truthy
`firstName` and `email` creates exactly one transport. Its host is `SMTP_HOST` when that is
set and non-empty, else "smtp.gmail.com"; its port is `parseInt` of `SMTP_PORT` when that is
set and non-empty, else 587; and `secure` is true if and only if the port equals 465. With
`SMTP_PORT` unset or empty the port is 587 and `secure` is false. When `SMTP_PORT` is a
string of decimal digits denoting a number below `2^53`, the port is exactly that number
and `secure` is true exactly when the number is 465. In general the integer `parseInt`
reads is the leading one, in decimal or after `0x` in hexadecimal, rounded to a double, and
`NaN` when the text starts with no digit. -/
theorem transport_settings (env : Env) (mailer : Nodemailer) (req : Request)
    (props : List (String × JsValue))
    (hbody : destructure req.body = .ok props)
    (hfirst : truthy (getProp props "firstName") = true)
    (hemail : truthy (getProp props "email") = true)
    (huser : envTruthy env.SMTP_USER = true) (hpass : envTruthy env.SMTP_PASS = true) :
    transportCalls (contactHandler env mailer req) = [transportOptions env] ∧
    (transportOptions env).host
      = (match env.SMTP_HOST with
          | some host => if host = "" then "smtp.gmail.com" else host
          | none => "smtp.gmail.com") ∧
    (transportOptions env).port
      = (match env.SMTP_PORT with
          | some text => if text = "" then .int 587 else parseInt text
          | none => .int 587) ∧
    ((transportOptions env).secure = true ↔ (transportOptions env).port = .int 465) ∧
    ((env.SMTP_PORT = none ∨ env.SMTP_PORT = some "") →
      (transportOptions env).port = .int 587 ∧ (transportOptions env).secure = false) ∧
    (∀ digits : List Nat, digits ≠ [] → (∀ d ∈ digits, d < 10) →
      env.SMTP_PORT = some (String.mk (digits.map Nat.digitChar)) →
      Nat.ofDigits 10 digits.reverse < 2 ^ 53 →
      (transportOptions env).port = .int (Nat.ofDigits 10 digits.reverse : Nat) ∧
      ((transportOptions env).secure = true ↔ Nat.ofDigits 10 digits.reverse = 465)) ∧
    parseInt "465" = .int 465 ∧
    parseInt "587" = .int 587 ∧
    parseInt "0465" = .int 465 ∧
    parseInt " +465 tls" = .int 465 ∧
    parseInt "0x1D1" = .int 465 ∧
    parseInt "465.9" = .int 465 ∧
    parseInt "-465" = .int (-465) ∧
    parseInt "-0" = .negZero ∧
    parseInt "smtp" = .nan ∧
    parseInt "9007199254740993" = .int 9007199254740992 := by
  refine ⟨?_, ?_, transportOptions_port env, transportOptions_secure env, ?_, ?_,
    by decide, by decide, by decide, by decide, by decide, by decide, by decide, by decide,
    by decide, by decide⟩
  · unfold contactHandler
    simp only [hbody, hfirst, hemail, huser, hpass, Bool.not_true, Bool.or_self,
      Bool.false_eq_true, if_false]
    have hcalls := transportCalls_contactTry env mailer (getProp props "firstName")
      (getProp props "lastName") (getProp props "email") (getProp props "userType")
      (getProp props "message")
    split
    · rename_i done heq
      rw [heq] at hcalls
      exact hcalls
    · rename_i done error heq
      rw [heq] at hcalls
      rw [transportCalls_append_catch]
      exact hcalls
  · cases hh : env.SMTP_HOST with
    | none => simp [transportOptions, envOr, hh]
    | some host => by_cases hempty : host = "" <;> simp [transportOptions, envOr, hh, hempty]
  · intro hport
    have hp := transportOptions_port env
    have hs := transportOptions_secure env
    have hval : (transportOptions env).port = .int 587 := by
      rcases hport with h | h <;> simpa [h] using hp
    refine ⟨hval, ?_⟩
    rw [hval] at hs
    cases hsec : (transportOptions env).secure with
    | false => rfl
    | true =>
      have := hs.mp hsec
      simp at this
  · intro digits hne hdigits htext hsmall
    have hp := transportOptions_port env
    have hs := transportOptions_secure env
    have hnonempty : String.mk (digits.map Nat.digitChar) ≠ "" := by
      cases digits with
      | nil => exact absurd rfl hne
      | cons d rest =>
        intro h
        have := congrArg String.data h
        simp at this
    have hval : (transportOptions env).port = .int (Nat.ofDigits 10 digits.reverse : Nat) := by
      rw [hp, htext]
      simp only [hnonempty, if_false]
      exact parseInt_digits digits hne hdigits hsmall
    refine ⟨hval, ?_⟩
    rw [hs, hval]
    constructor
    · intro h
      have h2 : ((Nat.ofDigits 10 digits.reverse : Nat) : Int) = 465 := by
        injection h
      exact_mod_cast h2
    · intro h
      rw [h]
      rfl

theorem transport_settings_witness :
    transportCalls (contactHandler secureEnv okMailer janeRequest) = [transportOptions secureEnv] ∧
    (transportOptions secureEnv).host = "smtp.example.org" ∧
    (transportOptions secureEnv).port = .int 465 ∧
    (transportOptions secureEnv).secure = true ∧
    (transportOptions sampleEnv).host = "smtp.gmail.com" ∧
    (transportOptions sampleEnv).port = .int 587 ∧
    (transportOptions sampleEnv).secure = false :=
  have hsecure := transport_settings secureEnv okMailer janeRequest janeProps rfl rfl rfl rfl rfl
  have hdefault := transport_settings sampleEnv okMailer janeRequest janeProps rfl rfl rfl rfl rfl
  have hdigits := hsecure.2.2.2.2.2.1 [4, 6, 5] (by decide) (by decide) rfl (by decide)
  ⟨hsecure.1, hsecure.2.1, hdigits.1, hdigits.2.mpr (by decide), hdefault.2.1,
    (hdefault.2.2.2.2.1 (Or.inl rfl)).1, (hdefault.2.2.2.2.1 (Or.inl rfl)).2⟩

/-! ## `POST /api/chat`: the successful call -/

theorem ai_of_key {env : Env} {key : String} (hkey : env.GEMINI_API_KEY = some key)
    (hne : key ≠ "") : ai env = some { apiKey := key } := by
  simp [ai, hkey, hne]

/-- C9: with an API key configured and a truthy `message` (every non-empty string is truthy),
the chat handler calls `generateContent` exactly once, with the message unchanged as
`contents`, the fixed model and the fixed system instruction. If the call returns, the only
response has status 200 and body `{reply: r}`, where `r` is the returned text when that is
truthy (for a string: non-empty) and the fixed fallback string when the text is `undefined`,
`null` or empty; a missing text never makes the handler fail. -/
theorem chat_success (env : Env) (key : String)
    (generateContent : GoogleGenAI → GenerateContentParameters →
      Except JsError GenerateContentResponse)
    (req : Request) (props : List (String × JsValue)) (text : JsValue)
    (hkey : env.GEMINI_API_KEY = some key) (hne : key ≠ "")
    (hbody : destructure req.body = .ok props)
    (hmsg : truthy (getProp props "message") = true) :
    generateCalls (chatHandler (ai env) generateContent req)
      = [chatParams (getProp props "message")] ∧
    (chatParams (getProp props "message")).contents = getProp props "message" ∧
    (chatParams (getProp props "message")).model = "gemini-3-flash-preview" ∧
    (chatParams (getProp props "message")).systemInstruction
      = "You are ARKY, a helpful and secure AI agent for business operations. Keep responses concise and professional." ∧
    (generateContent { apiKey := key } (chatParams (getProp props "message"))
        = .ok { text := text } →
      responses (chatHandler (ai env) generateContent req)
        = [(200, [("reply", if truthy text = true then text else .str fallbackReply)])] ∧
      (∀ s, text = .str s → s ≠ "" →
        responses (chatHandler (ai env) generateContent req) = [(200, [("reply", .str s)])]) ∧
      ((text = .undefined ∨ text = .null ∨ text = .str "") →
        responses (chatHandler (ai env) generateContent req)
          = [(200, [("reply",
              .str "I processed your request but could not generate a text response.")])])) := by
  rw [ai_of_key hkey hne]
  refine ⟨?_, rfl, rfl, rfl, ?_⟩
  · cases hg : generateContent { apiKey := key } (chatParams (getProp props "message")) with
    | error e => simp [chatHandler, hbody, hmsg, hg, generateCalls]
    | ok response => simp [chatHandler, hbody, hmsg, hg, generateCalls]
  · intro hret
    have hresp : responses (chatHandler (some { apiKey := key }) generateContent req)
        = [(200, [("reply", if truthy text = true then text else .str fallbackReply)])] := by
      simp [chatHandler, hbody, hmsg, hret, responses, jsOr]
    refine ⟨hresp, ?_, ?_⟩
    · intro s hs hsne
      rw [hresp, hs, if_pos ((truthy_str s).mpr hsne)]
    · intro hmissing
      rw [hresp, if_neg (by simp [truthy_of_missing hmissing])]
      rfl

theorem chat_success_witness :
    generateCalls (chatHandler (ai sampleEnv) silentService hiChatRequest)
      = [chatParams (.str "Hi")] ∧
    responses (chatHandler (ai sampleEnv) silentService hiChatRequest)
      = [(200, [("reply",
          .str "I processed your request but could not generate a text response.")])] :=
  have h := chat_success sampleEnv "key-1" silentService hiChatRequest [("message", .str "Hi")]
    .undefined rfl (by decide) rfl rfl
  ⟨h.1, (h.2.2.2.2 rfl).2.2 (Or.inl rfl)⟩

/-! ## One JSON response per request -/

theorem truthy_ne_undefined {v : JsValue} (h : truthy v = true) : v ≠ .undefined := by
  intro hv
  rw [hv] at h
  simp [truthy] at h

theorem jsOr_str_ne_undefined (a : JsValue) (s : String) : jsOr a (.str s) ≠ .undefined := by
  unfold jsOr
  split
  · rename_i h
    exact truthy_ne_undefined h
  · simp

theorem chat_responses_cases (client : Option GoogleGenAI)
    (generateContent : GoogleGenAI → GenerateContentParameters →
      Except JsError GenerateContentResponse)
    (req : Request)
    (hbody : client = none ∨ ∃ props, destructure req.body = .ok props) :
    (∃ msg, responses (chatHandler client generateContent req)
      = [(500, [("error", .str msg)])]) ∨
    (∃ msg, responses (chatHandler client generateContent req)
      = [(400, [("error", .str msg)])]) ∨
    (∃ r, r ≠ .undefined ∧
      responses (chatHandler client generateContent req) = [(200, [("reply", r)])]) := by
  cases client with
  | none => exact Or.inl ⟨_, rfl⟩
  | some c =>
    rcases hbody with hnone | ⟨props, hprops⟩
    · cases hnone
    · cases hm : truthy (getProp props "message") with
      | false =>
        refine Or.inr (Or.inl ⟨"Message is required.", ?_⟩)
        simp [chatHandler, hprops, hm, responses]
      | true =>
        cases hg : generateContent c (chatParams (getProp props "message")) with
        | error e =>
          refine Or.inl ⟨"Failed to connect to AI service.", ?_⟩
          simp [chatHandler, hprops, hm, hg, responses]
        | ok response =>
          refine Or.inr (Or.inr ⟨jsOr response.text (.str fallbackReply),
            jsOr_str_ne_undefined _ _, ?_⟩)
          simp [chatHandler, hprops, hm, hg, responses]

theorem contact_responses_cases (env : Env) (mailer : Nodemailer) (req : Request)
    (props : List (String × JsValue)) (hbody : destructure req.body = .ok props) :
    (∃ msg, responses (contactHandler env mailer req) = [(500, [("error", .str msg)])]) ∨
    (∃ msg, responses (contactHandler env mailer req) = [(400, [("error", .str msg)])]) ∨
    responses (contactHandler env mailer req)
      = [(200, [("success", .bool true), ("message", .str "Email sent successfully")])] := by
  unfold contactHandler
  simp only [hbody]
  split
  · exact Or.inr (Or.inl ⟨_, rfl⟩)
  · split
    · exact Or.inl ⟨_, rfl⟩
    · unfold contactTry
      cases hct : mailer.createTransport (transportOptions env) with
      | error e =>
        refine Or.inl ⟨"Failed to send email. Please try again later.", ?_⟩
        simp [hct, responses]
      | ok u =>
        cases hc : mailOptions env (getProp props "firstName") (getProp props "lastName")
            (getProp props "email") (getProp props "userType")
            (getProp props "message") with
        | error e =>
          refine Or.inl ⟨"Failed to send email. Please try again later.", ?_⟩
          simp [hct, hc, responses]
        | ok composed =>
          cases hs : mailer.sendMail (transportOptions env) composed with
          | error e =>
            refine Or.inl ⟨"Failed to send email. Please try again later.", ?_⟩
            simp [hct, hc, hs, responses]
          | ok u2 =>
            cases he : toStr (getProp props "email") with
            | error e =>
              refine Or.inl ⟨"Failed to send email. Please try again later.", ?_⟩
              simp [hct, hc, hs, he, responses]
            | ok emailText =>
              refine Or.inr (Or.inr ?_)
              simp [hct, hc, hs, he, responses]

/-- C10 (as amended): for every request whose `req.body` is defined (neither `undefined` nor
`null`; for the chat handler also for every request when no API key is configured), every
configuration and every outcome of the external calls, the handler sends exactly one
response. Its status is 200, 400 or 500. The body has an `error` string and neither `reply`
nor `success` exactly when the status is 400 or 500; it has `reply` (chat), or
`success: true` with a `message` string (contact), and no `error` exactly when the status is
200. -/
theorem one_json_response (client : Option GoogleGenAI)
    (generateContent : GoogleGenAI → GenerateContentParameters →
      Except JsError GenerateContentResponse)
    (chatReq : Request) (env : Env) (mailer : Nodemailer) (contactReq : Request)
    (hchat : client = none ∨ (chatReq.body ≠ .undefined ∧ chatReq.body ≠ .null))
    (hcontact : contactReq.body ≠ .undefined ∧ contactReq.body ≠ .null) :
    (∃ status body,
      responses (chatHandler client generateContent chatReq) = [(status, body)] ∧
      (status = 200 ∨ status = 400 ∨ status = 500) ∧
      ((status = 400 ∨ status = 500) ↔
        ((∃ msg, List.lookup "error" body = some (.str msg)) ∧
          List.lookup "reply" body = none ∧ List.lookup "success" body = none)) ∧
      (status = 200 ↔
        ((∃ r, List.lookup "reply" body = some r ∧ r ≠ .undefined) ∧
          List.lookup "error" body = none))) ∧
    (∃ status body,
      responses (contactHandler env mailer contactReq) = [(status, body)] ∧
      (status = 200 ∨ status = 400 ∨ status = 500) ∧
      ((status = 400 ∨ status = 500) ↔
        ((∃ msg, List.lookup "error" body = some (.str msg)) ∧
          List.lookup "reply" body = none ∧ List.lookup "success" body = none)) ∧
      (status = 200 ↔
        (List.lookup "success" body = some (.bool true) ∧
          (∃ msg, List.lookup "message" body = some (.str msg)) ∧
          List.lookup "error" body = none))) := by
  have hchatBody : client = none ∨ ∃ props, destructure chatReq.body = .ok props :=
    hchat.imp id (fun h => destructure_defined h.1 h.2)
  obtain ⟨contactProps, hcontactBody⟩ := destructure_defined hcontact.1 hcontact.2
  constructor
  · rcases chat_responses_cases client generateContent chatReq hchatBody with
      ⟨msg, h⟩ | ⟨msg, h⟩ | ⟨r, hr, h⟩
    · exact ⟨500, _, h, by simp, by simp [List.lookup], by simp [List.lookup]⟩
    · exact ⟨400, _, h, by simp, by simp [List.lookup], by simp [List.lookup]⟩
    · exact ⟨200, _, h, by simp, by simp [List.lookup], by simp [List.lookup, hr]⟩
  · rcases contact_responses_cases env mailer contactReq contactProps hcontactBody with
      ⟨msg, h⟩ | ⟨msg, h⟩ | h
    · exact ⟨500, _, h, by simp, by simp [List.lookup], by simp [List.lookup]⟩
    · exact ⟨400, _, h, by simp, by simp [List.lookup], by simp [List.lookup]⟩
    · exact ⟨200, _, h, by simp, by simp [List.lookup], by simp [List.lookup]⟩

theorem one_json_response_witness :
    (∃ status body,
      responses (chatHandler (some sampleClient) helloService hiChatRequest)
        = [(status, body)] ∧
      (status = 200 ∨ status = 400 ∨ status = 500) ∧
      ((status = 400 ∨ status = 500) ↔
        ((∃ msg, List.lookup "error" body = some (.str msg)) ∧
          List.lookup "reply" body = none ∧ List.lookup "success" body = none)) ∧
      (status = 200 ↔
        ((∃ r, List.lookup "reply" body = some r ∧ r ≠ .undefined) ∧
          List.lookup "error" body = none))) ∧
    (∃ status body,
      responses (contactHandler sampleEnv okMailer janeRequest) = [(status, body)] ∧
      (status = 200 ∨ status = 400 ∨ status = 500) ∧
      ((status = 400 ∨ status = 500) ↔
        ((∃ msg, List.lookup "error" body = some (.str msg)) ∧
          List.lookup "reply" body = none ∧ List.lookup "success" body = none)) ∧
      (status = 200 ↔
        (List.lookup "success" body = some (.bool true) ∧
          (∃ msg, List.lookup "message" body = some (.str msg)) ∧
          List.lookup "error" body = none))) :=
  one_json_response (some sampleClient) helloService hiChatRequest sampleEnv okMailer
    janeRequest (Or.inr ⟨fun h => JsValue.noConfusion h, fun h => JsValue.noConfusion h⟩)
    ⟨fun h => JsValue.noConfusion h, fun h => JsValue.noConfusion h⟩

/-- C10 (as stated) fails: when no body was parsed, `req.body` is `undefined` and the
destructuring at the top of the handler throws outside the `try`; the contact handler, and
the chat handler with an API key, then send no response at all. -/
theorem bodyless_request_no_response :
    contactHandler sampleEnv okMailer bodylessRequest = [.rejected cannotDestructure] ∧
    responses (contactHandler sampleEnv okMailer bodylessRequest) = [] ∧
    chatHandler (ai sampleEnv) helloService bodylessRequest = [.rejected cannotDestructure] ∧
    responses (chatHandler (ai sampleEnv) helloService bodylessRequest) = [] :=
  ⟨rfl, rfl, rfl, rfl⟩

end ArkyBackend
